import Mathlib

/-!
Verification development for the HNSW index wrapper (`src/lib.rs`).

The wrapper manages four metric-specialized HNSW graph instances
(`HnswIndexL2`, `HnswIndexCosine`, `HnswIndexDot`, `HnswIndexL1`), each a
`Mutex`-guarded graph plus a fixed dimension.  The underlying ANN engine
(`hnsw_rs`) is an external capability; its primitives (construct, insert,
parallel_insert, search, enumerate_points, set_mode, dump, load) are
modelled here from the specification's capability contract (§6), with
exact nearest-neighbour search standing in for the engine's approximate
search and rational numbers standing in for `f32`.

State is passed explicitly: every wrapper operation takes the index state
and returns its result together with the (possibly updated) state, with
lock poisoning modelled as a boolean on the state.
-/

/-- The four supported metrics (`DistanceType` in `src/lib.rs`). -/
inductive DistanceType where
  | L2
  | Cosine
  | L1
  | Dot
deriving DecidableEq, Repr

/-- The error taxonomy of the wrapper (`HnswError` in `src/lib.rs`, lines 11-26).
Its variants are exactly: `IoError(String)`, `LockError`, `EmptyIndex`,
`DimensionMismatch { expected, got }`, `ReloadError(String)`, `DumpError(String)`. -/
inductive HnswError where
  | IoError (msg : String)
  | LockError
  | EmptyIndex
  | DimensionMismatch (expected : Nat) (got : Nat)
  | ReloadError (msg : String)
  | DumpError (msg : String)
deriving DecidableEq, Repr

/-- The Rust-source variant name of an `HnswError` value. -/
def HnswError.kindName : HnswError → String
  | .IoError _ => "IoError"
  | .LockError => "LockError"
  | .EmptyIndex => "EmptyIndex"
  | .DimensionMismatch _ _ => "DimensionMismatch"
  | .ReloadError _ => "ReloadError"
  | .DumpError _ => "DumpError"

/-- Whether an error is of the `DimensionMismatch` kind. -/
def HnswError.isDimensionMismatch : HnswError → Bool
  | .DimensionMismatch _ _ => true
  | _ => false

/-- The error kinds that the public operation surface can actually return:
every kind except `EmptyIndex`. -/
def HnswError.kindAllowed : HnswError → Bool
  | .IoError _ => true
  | .LockError => true
  | .EmptyIndex => false
  | .DimensionMismatch _ _ => true
  | .ReloadError _ => true
  | .DumpError _ => true

/-- A search hit (`SearchResult` in `src/lib.rs`): origin id and distance.
Distances are modelled as rationals in place of `f32`. -/
structure SearchResult where
  id : Nat
  distance : ℚ
deriving DecidableEq, Repr

/-- Modelled from the spec: the engine's L2 distance capability (squared
Euclidean distance; a strictly monotone surrogate for the engine's `DistL2`,
order-equivalent on every query). -/
def distL2 (a b : List ℚ) : ℚ :=
  (List.zipWith (fun x y => (x - y) * (x - y)) a b).sum

/-- Modelled from the spec: the engine's cosine distance capability
(a rational surrogate for `DistCosine`: one minus the dot product scaled by
the product of squared norms; the exact formula is engine-internal and
opaque to the wrapper). -/
def distCosine (a b : List ℚ) : ℚ :=
  1 - (List.zipWith (fun x y => x * y) a b).sum /
    (((List.zipWith (fun x y => x * y) a a).sum) * ((List.zipWith (fun x y => x * y) b b).sum) + 1)

/-- Modelled from the spec: the engine's dot-product distance capability
(`DistDot`: one minus the dot product). -/
def distDot (a b : List ℚ) : ℚ :=
  1 - (List.zipWith (fun x y => x * y) a b).sum

/-- Modelled from the spec: the engine's L1 (Manhattan) distance capability
(`DistL1`). -/
def distL1 (a b : List ℚ) : ℚ :=
  (List.zipWith (fun x y => |x - y|) a b).sum

/-- The distance function selected by a metric. -/
def DistanceType.eval : DistanceType → List ℚ → List ℚ → ℚ
  | .L2 => distL2
  | .Cosine => distCosine
  | .L1 => distL1
  | .Dot => distDot

/-- Modelled from the spec: the engine's graph state — capacity parameters,
fixed metric, searching-mode flag, and the inserted points (vector, origin id)
in insertion order.  The engine itself (`hnsw_rs`) is an external capability;
only its §6 contract is modelled. -/
structure Graph where
  max_nb_connection : Nat
  max_elements : Nat
  max_layer : Nat
  ef_construction : Nat
  metric : DistanceType
  searching_mode : Bool
  points : List (List ℚ × Nat)
deriving DecidableEq, Repr

/-- Modelled from the spec: `construct(metric, capacity_params) -> empty_graph`. -/
def Graph.construct (metric : DistanceType)
    (max_nb_connection max_elements max_layer ef_construction : Nat) : Graph :=
  { max_nb_connection := max_nb_connection
    max_elements := max_elements
    max_layer := max_layer
    ef_construction := ef_construction
    metric := metric
    searching_mode := false
    points := [] }

/-- Modelled from the spec: `insert(graph, vector, id) -> ok` (single-point
insert; duplicate-id policy is engine-defined — the point is simply appended). -/
def Graph.insertPoint (g : Graph) (v : List ℚ) (id : Nat) : Graph :=
  { g with points := g.points ++ [(v, id)] }

/-- Modelled from the spec: `parallel_insert(graph, [(vector,id)])`. -/
def Graph.parallelInsert (g : Graph) (pairs : List (List ℚ × Nat)) : Graph :=
  { g with points := g.points ++ pairs }

/-- Modelled from the spec: `enumerate_points(graph) -> unordered
[(vector, origin_id)]` (the model enumerates in insertion order; consumers
may not assume any order). -/
def Graph.enumeratePoints (g : Graph) : List (List ℚ × Nat) :=
  g.points

/-- Modelled from the spec: the engine's point count. -/
def Graph.get_nb_point (g : Graph) : Nat :=
  g.points.length

/-- Nearest-first ordering on search hits. -/
def srLe (a b : SearchResult) : Prop :=
  a.distance ≤ b.distance

instance : DecidableRel srLe := fun a b =>
  inferInstanceAs (Decidable (a.distance ≤ b.distance))

instance : IsTotal SearchResult srLe :=
  ⟨fun a b => le_total a.distance b.distance⟩

instance : IsTrans SearchResult srLe :=
  ⟨fun _ _ _ hab hbc => le_trans hab hbc⟩

/-- Modelled from the spec: `search(graph, query, k, ef_search) ->
nearest-first [(id, distance)], size <= k`.  Modelled as exact
nearest-neighbour search (sort every point by distance to the query,
nearest first, keep at most `k`); `ef_search` only tunes the engine's
recall/latency trade-off and does not affect the contract. -/
def Graph.searchEngine (g : Graph) (distFn : List ℚ → List ℚ → ℚ)
    (query : List ℚ) (k : Nat) (_ef_search : Nat) : List SearchResult :=
  (List.insertionSort srLe
    (g.points.map (fun p => SearchResult.mk p.2 (distFn query p.1)))).take k

/-- Modelled from the spec: the persisted-image store — a map from
(directory, basename) locations to engine-encoded graph images
(`PersistedImage` in the data model; the encoding itself is opaque, so the
model stores the graph). -/
abbrev Store := List ((String × String) × Graph)

/-- Modelled from the spec: `dump(graph, directory, basename) -> ok |
DumpFault`.  `ioFault` injects the engine's possible I/O or encode failure. -/
def Graph.file_dump (g : Graph) (fs : Store) (directory basename : String)
    (ioFault : Option String) : Except String Store :=
  match ioFault with
  | some msg => .error msg
  | none => .ok (((directory, basename), g) :: fs)

/-- Modelled from the spec: `load(directory, basename) ->
(buffer, graph_bound_to_buffer) | DecodeFault`. -/
def Store.load_hnsw (fs : Store) (directory basename : String) :
    Except String Graph :=
  match fs.find? (fun e => e.1 == (directory, basename)) with
  | some e => .ok e.2
  | none => .error "no persisted image at location"

/-- The wrapper's index state: the `Mutex`-guarded graph, the poisoned flag of
the lock, and the fixed dimension (`HnswIndexL2` & co. in `src/lib.rs`:
`inner: Mutex<HnswInner*>`, `dimension: u32`).  All four metric variants share
this state shape; the metric lives in the graph. -/
structure HnswIndex where
  inner : Graph
  poisoned : Bool
  dimension : Nat
deriving DecidableEq, Repr

namespace HnswIndex

/-- `HnswIndex*::new` (each variant's constructor, generic over the metric):
builds an empty graph with the given capacity parameters. -/
def new (metric : DistanceType)
    (max_nb_connection max_elements max_layer ef_construction dimension : Nat) :
    HnswIndex :=
  { inner := Graph.construct metric max_nb_connection max_elements max_layer ef_construction
    poisoned := false
    dimension := dimension }

/-- `HnswIndex*::load`: asks the engine to materialize a graph from the
persisted image; decode failure maps to `ReloadError`. -/
def load (fs : Store) (directory basename : String) (dimension : Nat) :
    Except HnswError HnswIndex :=
  match fs.load_hnsw directory basename with
  | .error e => .error (.ReloadError e)
  | .ok g => .ok { inner := g, poisoned := false, dimension := dimension }

/-- `HnswIndex*::insert`: dimension check first (before the lock), then lock,
then the engine's single-point insert.  `got` is cast to `u32` as in the
source (`data.len() as u32`). -/
def insert (st : HnswIndex) (data : List ℚ) (id : Nat) :
    Except HnswError Unit × HnswIndex :=
  if data.length ≠ st.dimension then
    (.error (.DimensionMismatch st.dimension (data.length % 2 ^ 32)), st)
  else if st.poisoned then (.error .LockError, st)
  else (.ok (), { st with inner := st.inner.insertPoint data id })

/-- `HnswIndex*::insert_batch`: array-length check, then every vector's
dimension (erroring at the first bad one), then lock, then the engine's
parallel insert of the zipped pairs. -/
def insert_batch (st : HnswIndex) (data : List (List ℚ)) (ids : List Nat) :
    Except HnswError Unit × HnswIndex :=
  if data.length ≠ ids.length then
    (.error (.IoError "Data and IDs must have the same length"), st)
  else
    match data.find? (fun v => v.length != st.dimension) with
    | some v => (.error (.DimensionMismatch st.dimension (v.length % 2 ^ 32)), st)
    | none =>
      if st.poisoned then (.error .LockError, st)
      else (.ok (), { st with inner := st.inner.parallelInsert (data.zip ids) })

/-- `HnswIndex*::search` (generic over the metric): dimension check, lock,
then the engine's search with the variant's distance function. -/
def search (metric : DistanceType) (st : HnswIndex) (query : List ℚ)
    (k ef_search : Nat) : Except HnswError (List SearchResult) :=
  if query.length ≠ st.dimension then
    .error (.DimensionMismatch st.dimension (query.length % 2 ^ 32))
  else if st.poisoned then .error .LockError
  else .ok (st.inner.searchEngine metric.eval query k ef_search)

/-- `HnswIndex*::len`: the engine's point count, under lock. -/
def len (st : HnswIndex) : Except HnswError Nat :=
  if st.poisoned then .error .LockError
  else .ok st.inner.get_nb_point

/-- `HnswIndex*::is_empty`: zero-count check, under lock. -/
def is_empty (st : HnswIndex) : Except HnswError Bool :=
  if st.poisoned then .error .LockError
  else .ok (st.inner.get_nb_point == 0)

/-- `HnswIndex*::get_dimension`: immutable, no lock. -/
def get_dimension (st : HnswIndex) : Nat :=
  st.dimension

/-- `HnswIndex*::save`: serializes the graph under lock via the engine's
`file_dump`; engine fault maps to `DumpError`. -/
def save (st : HnswIndex) (fs : Store) (directory basename : String)
    (ioFault : Option String) : Except HnswError Store :=
  if st.poisoned then .error .LockError
  else
    match st.inner.file_dump fs directory basename ioFault with
    | .error e => .error (.DumpError e)
    | .ok fs2 => .ok fs2

/-- `HnswIndex*::set_searching_mode`: toggles the engine hint, under lock. -/
def set_searching_mode (st : HnswIndex) (enabled : Bool) :
    Except HnswError Unit × HnswIndex :=
  if st.poisoned then (.error .LockError, st)
  else (.ok (), { st with inner := { st.inner with searching_mode := enabled } })

end HnswIndex

/-- The construction/compaction configuration record (spec §6):
`{max_nb_connection, max_elements, max_layer, ef_construction, dimension,
distance}`. -/
structure HnswConfig where
  max_nb_connection : Nat
  max_elements : Nat
  max_layer : Nat
  ef_construction : Nat
  dimension : Nat
  distance : DistanceType
deriving DecidableEq, Repr

/-- Modelled from the spec: the compaction filter (§4.3 steps 3 and 5) — one
pass over the enumeration that skips any point whose origin id is tombstoned
or already seen earlier in the pass (keeping only the first occurrence). -/
def filterSurvivors :
    List (List ℚ × Nat) → List Nat → List Nat → List (List ℚ × Nat)
  | [], _, _ => []
  | (v, id) :: rest, tombstones, seen =>
    if id ∈ tombstones ∨ id ∈ seen then filterSurvivors rest tombstones seen
    else (v, id) :: filterSurvivors rest tombstones (id :: seen)

/-- Modelled from the spec: the CompactionEngine (§4.3); absent from
`src/lib.rs`, which holds only the operation surface.  Validates the config
against the source's metric and dimension (the spec names DistanceMismatch
for a metric mismatch, but the source error enum has no such kind, so the
model reports `IoError` there), returns an empty index for an empty source,
range-checks the tombstones, filters survivors, allocates a graph of
capacity `max(config.max_elements, survivor_count)`, and re-inserts each
survivor sequentially via the engine's ordinary insert. -/
def HnswIndex.compact (st : HnswIndex) (tombstones : List Nat)
    (config : HnswConfig) : Except HnswError HnswIndex :=
  if config.distance ≠ st.inner.metric then
    .error (.IoError "distance metric mismatch")
  else if config.dimension ≠ st.dimension then
    .error (.DimensionMismatch st.dimension config.dimension)
  else if st.poisoned then .error .LockError
  else if st.inner.get_nb_point == 0 then
    .ok (HnswIndex.new config.distance config.max_nb_connection
      config.max_elements config.max_layer config.ef_construction config.dimension)
  else if tombstones.any (fun t => 2 ^ 64 ≤ t) then
    .error (.IoError "tombstone identifier exceeds addressable range")
  else
    let survivors := filterSurvivors st.inner.enumeratePoints tombstones []
    let g0 := Graph.construct config.distance config.max_nb_connection
      (max config.max_elements survivors.length) config.max_layer
      config.ef_construction
    let g := survivors.foldl (fun acc p => acc.insertPoint p.1 p.2) g0
    .ok { inner := g, poisoned := false, dimension := config.dimension }

/-! The four metric-specific index types of `src/lib.rs`.  Each block below
transliterates its own `impl` block; the four are copies of one another
except for the distance type baked into the graph. -/

namespace HnswIndexL2

/-- `HnswIndexL2::new` (src/lib.rs lines 141-163). -/
def new (max_nb_connection max_elements max_layer ef_construction dimension : Nat) :
    HnswIndex :=
  { inner := Graph.construct .L2 max_nb_connection max_elements max_layer ef_construction
    poisoned := false
    dimension := dimension }

/-- `HnswIndexL2::load` (src/lib.rs lines 165-184). -/
def load (fs : Store) (directory basename : String) (dimension : Nat) :
    Except HnswError HnswIndex :=
  match fs.load_hnsw directory basename with
  | .error e => .error (.ReloadError e)
  | .ok g => .ok { inner := g, poisoned := false, dimension := dimension }

/-- `HnswIndexL2::insert` (src/lib.rs lines 186-197). -/
def insert (st : HnswIndex) (data : List ℚ) (id : Nat) :
    Except HnswError Unit × HnswIndex :=
  if data.length ≠ st.dimension then
    (.error (.DimensionMismatch st.dimension (data.length % 2 ^ 32)), st)
  else if st.poisoned then (.error .LockError, st)
  else (.ok (), { st with inner := st.inner.insertPoint data id })

/-- `HnswIndexL2::insert_batch` (src/lib.rs lines 199-219). -/
def insert_batch (st : HnswIndex) (data : List (List ℚ)) (ids : List Nat) :
    Except HnswError Unit × HnswIndex :=
  if data.length ≠ ids.length then
    (.error (.IoError "Data and IDs must have the same length"), st)
  else
    match data.find? (fun v => v.length != st.dimension) with
    | some v => (.error (.DimensionMismatch st.dimension (v.length % 2 ^ 32)), st)
    | none =>
      if st.poisoned then (.error .LockError, st)
      else (.ok (), { st with inner := st.inner.parallelInsert (data.zip ids) })

/-- `HnswIndexL2::search` (src/lib.rs lines 221-232): uses `DistL2`. -/
def search (st : HnswIndex) (query : List ℚ) (k ef_search : Nat) :
    Except HnswError (List SearchResult) :=
  if query.length ≠ st.dimension then
    .error (.DimensionMismatch st.dimension (query.length % 2 ^ 32))
  else if st.poisoned then .error .LockError
  else .ok (st.inner.searchEngine distL2 query k ef_search)

/-- `HnswIndexL2::len` (src/lib.rs lines 234-238). -/
def len (st : HnswIndex) : Except HnswError Nat :=
  if st.poisoned then .error .LockError
  else .ok st.inner.get_nb_point

/-- `HnswIndexL2::is_empty` (src/lib.rs lines 240-244). -/
def is_empty (st : HnswIndex) : Except HnswError Bool :=
  if st.poisoned then .error .LockError
  else .ok (st.inner.get_nb_point == 0)

/-- `HnswIndexL2::get_dimension` (src/lib.rs lines 246-249). -/
def get_dimension (st : HnswIndex) : Nat :=
  st.dimension

/-- `HnswIndexL2::save` (src/lib.rs lines 251-260). -/
def save (st : HnswIndex) (fs : Store) (directory basename : String)
    (ioFault : Option String) : Except HnswError Store :=
  if st.poisoned then .error .LockError
  else
    match st.inner.file_dump fs directory basename ioFault with
    | .error e => .error (.DumpError e)
    | .ok fs2 => .ok fs2

/-- `HnswIndexL2::set_searching_mode` (src/lib.rs lines 262-267). -/
def set_searching_mode (st : HnswIndex) (enabled : Bool) :
    Except HnswError Unit × HnswIndex :=
  if st.poisoned then (.error .LockError, st)
  else (.ok (), { st with inner := { st.inner with searching_mode := enabled } })

end HnswIndexL2

namespace HnswIndexCosine

/-- `HnswIndexCosine::new` (src/lib.rs lines 278-300). -/
def new (max_nb_connection max_elements max_layer ef_construction dimension : Nat) :
    HnswIndex :=
  { inner := Graph.construct .Cosine max_nb_connection max_elements max_layer ef_construction
    poisoned := false
    dimension := dimension }

/-- `HnswIndexCosine::load` (src/lib.rs lines 302-321). -/
def load (fs : Store) (directory basename : String) (dimension : Nat) :
    Except HnswError HnswIndex :=
  match fs.load_hnsw directory basename with
  | .error e => .error (.ReloadError e)
  | .ok g => .ok { inner := g, poisoned := false, dimension := dimension }

/-- `HnswIndexCosine::insert` (src/lib.rs lines 323-334). -/
def insert (st : HnswIndex) (data : List ℚ) (id : Nat) :
    Except HnswError Unit × HnswIndex :=
  if data.length ≠ st.dimension then
    (.error (.DimensionMismatch st.dimension (data.length % 2 ^ 32)), st)
  else if st.poisoned then (.error .LockError, st)
  else (.ok (), { st with inner := st.inner.insertPoint data id })

/-- `HnswIndexCosine::insert_batch` (src/lib.rs lines 336-356). -/
def insert_batch (st : HnswIndex) (data : List (List ℚ)) (ids : List Nat) :
    Except HnswError Unit × HnswIndex :=
  if data.length ≠ ids.length then
    (.error (.IoError "Data and IDs must have the same length"), st)
  else
    match data.find? (fun v => v.length != st.dimension) with
    | some v => (.error (.DimensionMismatch st.dimension (v.length % 2 ^ 32)), st)
    | none =>
      if st.poisoned then (.error .LockError, st)
      else (.ok (), { st with inner := st.inner.parallelInsert (data.zip ids) })

/-- `HnswIndexCosine::search` (src/lib.rs lines 358-369): uses `DistCosine`. -/
def search (st : HnswIndex) (query : List ℚ) (k ef_search : Nat) :
    Except HnswError (List SearchResult) :=
  if query.length ≠ st.dimension then
    .error (.DimensionMismatch st.dimension (query.length % 2 ^ 32))
  else if st.poisoned then .error .LockError
  else .ok (st.inner.searchEngine distCosine query k ef_search)

/-- `HnswIndexCosine::len` (src/lib.rs lines 371-375). -/
def len (st : HnswIndex) : Except HnswError Nat :=
  if st.poisoned then .error .LockError
  else .ok st.inner.get_nb_point

/-- `HnswIndexCosine::is_empty` (src/lib.rs lines 377-381). -/
def is_empty (st : HnswIndex) : Except HnswError Bool :=
  if st.poisoned then .error .LockError
  else .ok (st.inner.get_nb_point == 0)

/-- `HnswIndexCosine::get_dimension` (src/lib.rs lines 383-386). -/
def get_dimension (st : HnswIndex) : Nat :=
  st.dimension

/-- `HnswIndexCosine::save` (src/lib.rs lines 388-397). -/
def save (st : HnswIndex) (fs : Store) (directory basename : String)
    (ioFault : Option String) : Except HnswError Store :=
  if st.poisoned then .error .LockError
  else
    match st.inner.file_dump fs directory basename ioFault with
    | .error e => .error (.DumpError e)
    | .ok fs2 => .ok fs2

/-- `HnswIndexCosine::set_searching_mode` (src/lib.rs lines 399-404). -/
def set_searching_mode (st : HnswIndex) (enabled : Bool) :
    Except HnswError Unit × HnswIndex :=
  if st.poisoned then (.error .LockError, st)
  else (.ok (), { st with inner := { st.inner with searching_mode := enabled } })

end HnswIndexCosine

namespace HnswIndexDot

/-- `HnswIndexDot::new` (src/lib.rs lines 415-437). -/
def new (max_nb_connection max_elements max_layer ef_construction dimension : Nat) :
    HnswIndex :=
  { inner := Graph.construct .Dot max_nb_connection max_elements max_layer ef_construction
    poisoned := false
    dimension := dimension }

/-- `HnswIndexDot::load` (src/lib.rs lines 439-458). -/
def load (fs : Store) (directory basename : String) (dimension : Nat) :
    Except HnswError HnswIndex :=
  match fs.load_hnsw directory basename with
  | .error e => .error (.ReloadError e)
  | .ok g => .ok { inner := g, poisoned := false, dimension := dimension }

/-- `HnswIndexDot::insert` (src/lib.rs lines 460-471). -/
def insert (st : HnswIndex) (data : List ℚ) (id : Nat) :
    Except HnswError Unit × HnswIndex :=
  if data.length ≠ st.dimension then
    (.error (.DimensionMismatch st.dimension (data.length % 2 ^ 32)), st)
  else if st.poisoned then (.error .LockError, st)
  else (.ok (), { st with inner := st.inner.insertPoint data id })

/-- `HnswIndexDot::insert_batch` (src/lib.rs lines 473-493). -/
def insert_batch (st : HnswIndex) (data : List (List ℚ)) (ids : List Nat) :
    Except HnswError Unit × HnswIndex :=
  if data.length ≠ ids.length then
    (.error (.IoError "Data and IDs must have the same length"), st)
  else
    match data.find? (fun v => v.length != st.dimension) with
    | some v => (.error (.DimensionMismatch st.dimension (v.length % 2 ^ 32)), st)
    | none =>
      if st.poisoned then (.error .LockError, st)
      else (.ok (), { st with inner := st.inner.parallelInsert (data.zip ids) })

/-- `HnswIndexDot::search` (src/lib.rs lines 495-506): uses `DistDot`. -/
def search (st : HnswIndex) (query : List ℚ) (k ef_search : Nat) :
    Except HnswError (List SearchResult) :=
  if query.length ≠ st.dimension then
    .error (.DimensionMismatch st.dimension (query.length % 2 ^ 32))
  else if st.poisoned then .error .LockError
  else .ok (st.inner.searchEngine distDot query k ef_search)

/-- `HnswIndexDot::len` (src/lib.rs lines 508-512). -/
def len (st : HnswIndex) : Except HnswError Nat :=
  if st.poisoned then .error .LockError
  else .ok st.inner.get_nb_point

/-- `HnswIndexDot::is_empty` (src/lib.rs lines 514-518). -/
def is_empty (st : HnswIndex) : Except HnswError Bool :=
  if st.poisoned then .error .LockError
  else .ok (st.inner.get_nb_point == 0)

/-- `HnswIndexDot::get_dimension` (src/lib.rs lines 520-523). -/
def get_dimension (st : HnswIndex) : Nat :=
  st.dimension

/-- `HnswIndexDot::save` (src/lib.rs lines 525-534). -/
def save (st : HnswIndex) (fs : Store) (directory basename : String)
    (ioFault : Option String) : Except HnswError Store :=
  if st.poisoned then .error .LockError
  else
    match st.inner.file_dump fs directory basename ioFault with
    | .error e => .error (.DumpError e)
    | .ok fs2 => .ok fs2

/-- `HnswIndexDot::set_searching_mode` (src/lib.rs lines 536-541). -/
def set_searching_mode (st : HnswIndex) (enabled : Bool) :
    Except HnswError Unit × HnswIndex :=
  if st.poisoned then (.error .LockError, st)
  else (.ok (), { st with inner := { st.inner with searching_mode := enabled } })

end HnswIndexDot

namespace HnswIndexL1

/-- `HnswIndexL1::new` (src/lib.rs lines 552-574). -/
def new (max_nb_connection max_elements max_layer ef_construction dimension : Nat) :
    HnswIndex :=
  { inner := Graph.construct .L1 max_nb_connection max_elements max_layer ef_construction
    poisoned := false
    dimension := dimension }

/-- `HnswIndexL1::load` (src/lib.rs lines 576-595). -/
def load (fs : Store) (directory basename : String) (dimension : Nat) :
    Except HnswError HnswIndex :=
  match fs.load_hnsw directory basename with
  | .error e => .error (.ReloadError e)
  | .ok g => .ok { inner := g, poisoned := false, dimension := dimension }

/-- `HnswIndexL1::insert` (src/lib.rs lines 597-608). -/
def insert (st : HnswIndex) (data : List ℚ) (id : Nat) :
    Except HnswError Unit × HnswIndex :=
  if data.length ≠ st.dimension then
    (.error (.DimensionMismatch st.dimension (data.length % 2 ^ 32)), st)
  else if st.poisoned then (.error .LockError, st)
  else (.ok (), { st with inner := st.inner.insertPoint data id })

/-- `HnswIndexL1::insert_batch` (src/lib.rs lines 610-630). -/
def insert_batch (st : HnswIndex) (data : List (List ℚ)) (ids : List Nat) :
    Except HnswError Unit × HnswIndex :=
  if data.length ≠ ids.length then
    (.error (.IoError "Data and IDs must have the same length"), st)
  else
    match data.find? (fun v => v.length != st.dimension) with
    | some v => (.error (.DimensionMismatch st.dimension (v.length % 2 ^ 32)), st)
    | none =>
      if st.poisoned then (.error .LockError, st)
      else (.ok (), { st with inner := st.inner.parallelInsert (data.zip ids) })

/-- `HnswIndexL1::search` (src/lib.rs lines 632-643): uses `DistL1`. -/
def search (st : HnswIndex) (query : List ℚ) (k ef_search : Nat) :
    Except HnswError (List SearchResult) :=
  if query.length ≠ st.dimension then
    .error (.DimensionMismatch st.dimension (query.length % 2 ^ 32))
  else if st.poisoned then .error .LockError
  else .ok (st.inner.searchEngine distL1 query k ef_search)

/-- `HnswIndexL1::len` (src/lib.rs lines 645-649). -/
def len (st : HnswIndex) : Except HnswError Nat :=
  if st.poisoned then .error .LockError
  else .ok st.inner.get_nb_point

/-- `HnswIndexL1::is_empty` (src/lib.rs lines 651-655). -/
def is_empty (st : HnswIndex) : Except HnswError Bool :=
  if st.poisoned then .error .LockError
  else .ok (st.inner.get_nb_point == 0)

/-- `HnswIndexL1::get_dimension` (src/lib.rs lines 657-660). -/
def get_dimension (st : HnswIndex) : Nat :=
  st.dimension

/-- `HnswIndexL1::save` (src/lib.rs lines 662-671). -/
def save (st : HnswIndex) (fs : Store) (directory basename : String)
    (ioFault : Option String) : Except HnswError Store :=
  if st.poisoned then .error .LockError
  else
    match st.inner.file_dump fs directory basename ioFault with
    | .error e => .error (.DumpError e)
    | .ok fs2 => .ok fs2

/-- `HnswIndexL1::set_searching_mode` (src/lib.rs lines 673-678). -/
def set_searching_mode (st : HnswIndex) (enabled : Bool) :
    Except HnswError Unit × HnswIndex :=
  if st.poisoned then (.error .LockError, st)
  else (.ok (), { st with inner := { st.inner with searching_mode := enabled } })

end HnswIndexL1

/-! Helper lemmas about the engine model and the compaction filter. -/

/-- Sequentially re-inserting a list of points appends them to the graph and
changes nothing else. -/
theorem foldl_insertPoint (l : List (List ℚ × Nat)) (g : Graph) :
    l.foldl (fun acc p => acc.insertPoint p.1 p.2) g
      = { g with points := g.points ++ l } := by
  induction l generalizing g with
  | nil => simp
  | cons p rest ih =>
    rw [List.foldl_cons, ih]
    simp [Graph.insertPoint]

/-- A prefix of a nearest-first list is still nearest-first. -/
theorem sorted_take {l : List SearchResult} (h : List.Sorted srLe l) (k : Nat) :
    List.Sorted srLe (l.take k) :=
  List.Pairwise.sublist (List.take_sublist k l) h

/-- Every point kept by the compaction filter comes from the enumeration and
is neither tombstoned nor previously seen. -/
theorem mem_filterSurvivors
    {pts : List (List ℚ × Nat)} {tombstones seen : List Nat}
    {p : List ℚ × Nat} (h : p ∈ filterSurvivors pts tombstones seen) :
    p ∈ pts ∧ p.2 ∉ tombstones := by
  induction pts generalizing seen with
  | nil => simp [filterSurvivors] at h
  | cons q rest ih =>
    obtain ⟨v, id⟩ := q
    by_cases hc : id ∈ tombstones ∨ id ∈ seen
    · rw [filterSurvivors, if_pos hc] at h
      obtain ⟨hmem, ht⟩ := ih h
      exact ⟨List.mem_cons_of_mem _ hmem, ht⟩
    · rw [filterSurvivors, if_neg hc] at h
      rcases List.mem_cons.mp h with hp | hp
      · subst hp
        push_neg at hc
        exact ⟨List.mem_cons_self _ _, hc.1⟩
      · obtain ⟨hmem, ht⟩ := ih hp
        exact ⟨List.mem_cons_of_mem _ hmem, ht⟩

/-- With pairwise-distinct origin ids (and nothing yet seen), the compaction
filter is exactly a tombstone filter: it keeps every non-tombstoned point. -/
theorem filterSurvivors_eq_filter
    (pts : List (List ℚ × Nat)) (tombstones : List Nat) (seen : List Nat)
    (hnd : (pts.map Prod.snd).Nodup)
    (hseen : ∀ p ∈ pts, p.2 ∉ seen) :
    filterSurvivors pts tombstones seen
      = pts.filter (fun p => decide (p.2 ∉ tombstones)) := by
  induction pts generalizing seen with
  | nil => rfl
  | cons q rest ih =>
    obtain ⟨v, id⟩ := q
    simp only [List.map_cons, List.nodup_cons] at hnd
    have hid : id ∉ seen := hseen (v, id) (List.mem_cons_self _ _)
    by_cases ht : id ∈ tombstones
    · rw [filterSurvivors, if_pos (Or.inl ht),
        ih _ hnd.2 (fun q hq => hseen q (List.mem_cons_of_mem _ hq))]
      simp [List.filter_cons, ht]
    · rw [filterSurvivors, if_neg (by push_neg; exact ⟨ht, hid⟩)]
      rw [ih _ hnd.2 ?_]
      · simp [List.filter_cons, ht]
      · intro q hq
        simp only [List.mem_cons]
        push_neg
        refine ⟨fun hqid => ?_, hseen q (List.mem_cons_of_mem _ hq)⟩
        exact hnd.1 (hqid ▸ List.mem_map_of_mem Prod.snd hq)

/-- Splitting a list's length by a predicate. -/
theorem length_filter_not_add {α : Type} (l : List α) (p : α → Bool) :
    (l.filter (fun a => !(p a))).length + (l.filter p).length = l.length := by
  induction l with
  | nil => rfl
  | cons a rest ih => by_cases h : p a <;> simp [List.filter_cons, h, ← ih] <;> omega

/-- Filtering pairs on their ids commutes with projecting the ids. -/
theorem map_snd_filter (pts : List (List ℚ × Nat)) (q : Nat → Bool) :
    (pts.filter (fun p => q p.2)).map Prod.snd = (pts.map Prod.snd).filter q := by
  induction pts with
  | nil => rfl
  | cons p rest ih => by_cases h : q p.2 <;> simp [List.filter_cons, h, ih]

/-- On a duplicate-free id list, counting the tombstoned ids is the size of
the intersection of the id set with the tombstone set. -/
theorem length_filter_mem_eq_card_inter {ids S : List Nat} (h : ids.Nodup) :
    (ids.filter (fun i => decide (i ∈ S))).length
      = (ids.toFinset ∩ S.toFinset).card := by
  classical
  rw [← List.toFinset_card_of_nodup (h.filter _)]
  congr 1
  ext i
  simp [List.mem_filter]

/-! Concrete states used by the witnesses. -/

/-- An empty L2 index of dimension 3 (the spec's concrete scenario shape). -/
def exampleIndexDim3 : HnswIndex :=
  HnswIndexL2.new 16 100 16 200 3

/-- An L2 index of dimension 3 holding the spec's concrete scenario points
1:[0,0,0], 2:[1,0,0], 3:[10,10,10]. -/
def exampleScenarioIndex : HnswIndex :=
  { inner := { Graph.construct .L2 16 100 16 200 with
      points := [([0, 0, 0], 1), ([1, 0, 0], 2), ([10, 10, 10], 3)] }
    poisoned := false
    dimension := 3 }

/-- A dimension-1 L2 index with three points of pairwise-distinct ids, used to
exercise compaction. -/
def exampleCompactSource : HnswIndex :=
  { inner := { Graph.construct .L2 16 100 16 200 with
      points := [([0], 1), ([1], 2), ([2], 3)] }
    poisoned := false
    dimension := 1 }

/-- A compaction config matching `exampleCompactSource`. -/
def exampleCompactConfig : HnswConfig :=
  { max_nb_connection := 16, max_elements := 10, max_layer := 16
    ef_construction := 200, dimension := 1, distance := .L2 }

/-- A compaction config matching `exampleCompactSource` in dimension but with
an under-sized capacity. -/
def exampleSmallConfig : HnswConfig :=
  { max_nb_connection := 16, max_elements := 1, max_layer := 16
    ef_construction := 200, dimension := 1, distance := .L2 }

/-- A config whose metric disagrees with `exampleCompactSource`'s L2. -/
def exampleMismatchConfig : HnswConfig :=
  { max_nb_connection := 16, max_elements := 10, max_layer := 16
    ef_construction := 200, dimension := 1, distance := .Cosine }

/-- A poisoned-lock index of dimension 0. -/
def examplePoisonedIndex : HnswIndex :=
  { inner := Graph.construct .L2 16 100 16 200, poisoned := true, dimension := 0 }

/-- Claim C2: on an index of fixed dimension, inserting a vector whose length
differs from the dimension fails with `DimensionMismatch`, the state is not
mutated, and the point count is unchanged. -/
theorem insert_dimension_mismatch (st : HnswIndex) (data : List ℚ) (id : Nat)
    (h : data.length ≠ st.dimension) :
    HnswIndex.insert st data id
        = (.error (.DimensionMismatch st.dimension (data.length % 2 ^ 32)), st) ∧
      HnswIndex.len (HnswIndex.insert st data id).2 = HnswIndex.len st := by
  constructor
  · unfold HnswIndex.insert
    rw [if_pos h]
  · unfold HnswIndex.insert
    rw [if_pos h]

/-- Witness for C2: inserting a length-2 vector into a dimension-3 index
fails with `DimensionMismatch` and leaves the count unchanged. -/
theorem insert_dimension_mismatch_witness :
    HnswIndex.insert exampleIndexDim3 [0, 0] 7
        = (.error (.DimensionMismatch 3 2), exampleIndexDim3) ∧
      HnswIndex.len (HnswIndex.insert exampleIndexDim3 [0, 0] 7).2
        = HnswIndex.len exampleIndexDim3 :=
  insert_dimension_mismatch exampleIndexDim3 [0, 0] 7 (by decide)

/-- Claim C3: an `insert_batch` whose two arrays differ in length fails with
`IoError`, the state is not mutated, and the point count is unchanged. -/
theorem insert_batch_length_mismatch (st : HnswIndex) (data : List (List ℚ))
    (ids : List Nat) (h : data.length ≠ ids.length) :
    HnswIndex.insert_batch st data ids
        = (.error (.IoError "Data and IDs must have the same length"), st) ∧
      HnswIndex.len (HnswIndex.insert_batch st data ids).2 = HnswIndex.len st := by
  constructor
  · unfold HnswIndex.insert_batch
    rw [if_pos h]
  · unfold HnswIndex.insert_batch
    rw [if_pos h]

/-- Witness for C3: a batch of 3 vectors with 2 ids fails with `IoError` and
leaves the count unchanged. -/
theorem insert_batch_length_mismatch_witness :
    HnswIndex.insert_batch exampleIndexDim3 [[0, 0, 0], [1, 0, 0], [2, 0, 0]] [1, 2]
        = (.error (.IoError "Data and IDs must have the same length"),
            exampleIndexDim3) ∧
      HnswIndex.len
          (HnswIndex.insert_batch exampleIndexDim3
            [[0, 0, 0], [1, 0, 0], [2, 0, 0]] [1, 2]).2
        = HnswIndex.len exampleIndexDim3 :=
  insert_batch_length_mismatch exampleIndexDim3 [[0, 0, 0], [1, 0, 0], [2, 0, 0]]
    [1, 2] (by decide)

/-- Counterexample to claim C4 as stated: a batch holding one vector of the
wrong length (an empty vector against dimension 3) together with an ids array
of a different length fails with `IoError`, not `DimensionMismatch` — the
array-length check runs first. -/
theorem insert_batch_bad_vector_not_dimension_mismatch :
    ([([] : List ℚ)].any (fun v => v.length != exampleIndexDim3.dimension)) = true ∧
      (HnswIndex.insert_batch exampleIndexDim3 [[]] []).1
        = .error (.IoError "Data and IDs must have the same length") ∧
      (match (HnswIndex.insert_batch exampleIndexDim3 [[]] []).1 with
        | .error e => e.isDimensionMismatch
        | .ok _ => true) = false :=
  ⟨rfl, rfl, rfl⟩

/-- Claim C4 (amended): when the two arrays have equal length, a batch holding
at least one vector of the wrong length fails with `DimensionMismatch` before
any insertion — the state is not mutated, so `len` is unchanged. -/
theorem insert_batch_dimension_mismatch (st : HnswIndex) (data : List (List ℚ))
    (ids : List Nat) (hlen : data.length = ids.length)
    (hbad : ∃ v ∈ data, v.length ≠ st.dimension) :
    ∃ got,
      HnswIndex.insert_batch st data ids
          = (.error (.DimensionMismatch st.dimension got), st) ∧
        HnswIndex.len (HnswIndex.insert_batch st data ids).2 = HnswIndex.len st := by
  have hfind : (data.find? (fun v => v.length != st.dimension)).isSome := by
    rw [List.find?_isSome]
    obtain ⟨v, hv, hne⟩ := hbad
    exact ⟨v, hv, by simpa using hne⟩
  obtain ⟨v, hv⟩ := Option.isSome_iff_exists.mp hfind
  refine ⟨v.length % 2 ^ 32, ?_, ?_⟩
  · unfold HnswIndex.insert_batch
    rw [if_neg (by simp [hlen]), hv]
  · unfold HnswIndex.insert_batch
    rw [if_neg (by simp [hlen]), hv]

/-- Witness for the amended C4: equal-length arrays with one short vector fail
with `DimensionMismatch` and leave the count unchanged. -/
theorem insert_batch_dimension_mismatch_witness :
    ∃ got,
      HnswIndex.insert_batch exampleIndexDim3 [[0, 0, 0], [5]] [1, 2]
          = (.error (.DimensionMismatch 3 got), exampleIndexDim3) ∧
        HnswIndex.len
            (HnswIndex.insert_batch exampleIndexDim3 [[0, 0, 0], [5]] [1, 2]).2
          = HnswIndex.len exampleIndexDim3 :=
  insert_batch_dimension_mismatch exampleIndexDim3 [[0, 0, 0], [5]] [1, 2] (by decide)
    ⟨[5], by decide, by decide⟩

/-- Counterexample to claim C6 as stated: the error taxonomy has no
`DistanceMismatch` kind at all. -/
theorem no_distance_mismatch_kind :
    ¬ ∃ e : HnswError, e.kindName = "DistanceMismatch" := by
  rintro ⟨e, h⟩
  cases e <;> simp [HnswError.kindName] at h

/-- Claim C6 (amended): the error taxonomy consists of exactly the kinds
IoError, LockError, EmptyIndex, DimensionMismatch, ReloadError and DumpError —
there is no DistanceMismatch kind — and the (spec-modelled) compaction reports
a metric mismatch as `IoError`, before reading any index state. -/
theorem error_taxonomy_no_distance_mismatch :
    (∀ e : HnswError,
      e.kindName ∈ ["IoError", "LockError", "EmptyIndex", "DimensionMismatch",
        "ReloadError", "DumpError"] ∧ e.kindName ≠ "DistanceMismatch") ∧
    (∀ (st : HnswIndex) (tombstones : List Nat) (config : HnswConfig),
      config.distance ≠ st.inner.metric →
        HnswIndex.compact st tombstones config
          = .error (.IoError "distance metric mismatch")) := by
  constructor
  · intro e
    cases e <;> simp [HnswError.kindName]
  · intro st tombstones config h
    unfold HnswIndex.compact
    rw [if_pos h]

/-- Witness for the amended C6: compacting an L2 index under a Cosine config
fails with the metric-mismatch `IoError`. -/
theorem error_taxonomy_no_distance_mismatch_witness :
    HnswIndex.compact exampleCompactSource [] exampleMismatchConfig
      = .error (.IoError "distance metric mismatch") :=
  error_taxonomy_no_distance_mismatch.2 exampleCompactSource [] exampleMismatchConfig
    (by decide)

/-- Claim C5: a search with a query of the correct dimension (under a healthy
lock) succeeds with at most `k` hits ordered nearest-first, and returns the
empty sequence — not an error — when the index holds no points. -/
theorem search_contract (d : DistanceType) (st : HnswIndex) (query : List ℚ)
    (k ef : Nat) (hq : query.length = st.dimension) (hp : st.poisoned = false) :
    ∃ res,
      HnswIndex.search d st query k ef = .ok res ∧
        res.length ≤ k ∧
        List.Sorted srLe res ∧
        (st.inner.points = [] → res = []) := by
  refine ⟨st.inner.searchEngine d.eval query k ef, ?_, ?_, ?_, ?_⟩
  · unfold HnswIndex.search
    rw [if_neg (by simp [hq]), if_neg (by simp [hp])]
  · unfold Graph.searchEngine
    exact List.length_take_le _ _
  · exact sorted_take (List.sorted_insertionSort srLe _) k
  · intro h
    simp [Graph.searchEngine, h]

/-- Witness for C5: on the spec's concrete dimension-3 scenario index, a
search with k = 2 succeeds, returns at most two hits nearest-first, and the
empty-index clause holds vacuously. -/
theorem search_contract_witness :
    ∃ res,
      HnswIndex.search .L2 exampleScenarioIndex [0, 0, 0] 2 10 = .ok res ∧
        res.length ≤ 2 ∧
        List.Sorted srLe res ∧
        (exampleScenarioIndex.inner.points = [] → res = []) :=
  search_contract .L2 exampleScenarioIndex [0, 0, 0] 2 10 (by decide) rfl

/-- The single-insert error path can only produce an allowed error kind. -/
theorem insert_err_allowed (st : HnswIndex) (data : List ℚ) (id : Nat)
    (e : HnswError) (h : (HnswIndex.insert st data id).1 = .error e) :
    e.kindAllowed = true := by
  unfold HnswIndex.insert at h
  split at h
  · injection h with h2
    exact h2 ▸ rfl
  · split at h
    · injection h with h2
      exact h2 ▸ rfl
    · injection h

/-- The batch-insert error path can only produce an allowed error kind. -/
theorem insert_batch_err_allowed (st : HnswIndex) (data : List (List ℚ))
    (ids : List Nat) (e : HnswError)
    (h : (HnswIndex.insert_batch st data ids).1 = .error e) :
    e.kindAllowed = true := by
  unfold HnswIndex.insert_batch at h
  split at h
  · injection h with h2
    exact h2 ▸ rfl
  · split at h
    · injection h with h2
      exact h2 ▸ rfl
    · split at h
      · injection h with h2
        exact h2 ▸ rfl
      · injection h

/-- The search error path can only produce an allowed error kind. -/
theorem search_err_allowed (d : DistanceType) (st : HnswIndex) (query : List ℚ)
    (k ef : Nat) (e : HnswError)
    (h : HnswIndex.search d st query k ef = .error e) :
    e.kindAllowed = true := by
  unfold HnswIndex.search at h
  split at h
  · injection h with h2
    exact h2 ▸ rfl
  · split at h
    · injection h with h2
      exact h2 ▸ rfl
    · injection h

/-- The len error path can only produce an allowed error kind. -/
theorem len_err_allowed (st : HnswIndex) (e : HnswError)
    (h : HnswIndex.len st = .error e) : e.kindAllowed = true := by
  unfold HnswIndex.len at h
  split at h
  · injection h with h2
    exact h2 ▸ rfl
  · injection h

/-- The is_empty error path can only produce an allowed error kind. -/
theorem is_empty_err_allowed (st : HnswIndex) (e : HnswError)
    (h : HnswIndex.is_empty st = .error e) : e.kindAllowed = true := by
  unfold HnswIndex.is_empty at h
  split at h
  · injection h with h2
    exact h2 ▸ rfl
  · injection h

/-- The save error path can only produce an allowed error kind. -/
theorem save_err_allowed (st : HnswIndex) (fs : Store) (directory basename : String)
    (ioFault : Option String) (e : HnswError)
    (h : HnswIndex.save st fs directory basename ioFault = .error e) :
    e.kindAllowed = true := by
  unfold HnswIndex.save at h
  split at h
  · injection h with h2
    exact h2 ▸ rfl
  · split at h
    · injection h with h2
      exact h2 ▸ rfl
    · injection h

/-- The set_searching_mode error path can only produce an allowed error kind. -/
theorem set_searching_mode_err_allowed (st : HnswIndex) (enabled : Bool)
    (e : HnswError) (h : (HnswIndex.set_searching_mode st enabled).1 = .error e) :
    e.kindAllowed = true := by
  unfold HnswIndex.set_searching_mode at h
  split at h
  · injection h with h2
    exact h2 ▸ rfl
  · injection h

/-- Claim C10: no public operation of any of the four index variants ever
returns the `EmptyIndex` error kind — each either succeeds or fails with one
of IoError, LockError, DimensionMismatch, ReloadError, DumpError (the kinds
for which `HnswError.kindAllowed` holds). -/
theorem no_empty_index_error :
    (∀ st data id e, (HnswIndexL2.insert st data id).1 = .error e → e.kindAllowed = true) ∧
    (∀ st data ids e, (HnswIndexL2.insert_batch st data ids).1 = .error e → e.kindAllowed = true) ∧
    (∀ st q k ef e, HnswIndexL2.search st q k ef = .error e → e.kindAllowed = true) ∧
    (∀ st e, HnswIndexL2.len st = .error e → e.kindAllowed = true) ∧
    (∀ st e, HnswIndexL2.is_empty st = .error e → e.kindAllowed = true) ∧
    (∀ st fs dir base io e, HnswIndexL2.save st fs dir base io = .error e → e.kindAllowed = true) ∧
    (∀ st en e, (HnswIndexL2.set_searching_mode st en).1 = .error e → e.kindAllowed = true) ∧
    (∀ st data id e, (HnswIndexCosine.insert st data id).1 = .error e → e.kindAllowed = true) ∧
    (∀ st data ids e, (HnswIndexCosine.insert_batch st data ids).1 = .error e → e.kindAllowed = true) ∧
    (∀ st q k ef e, HnswIndexCosine.search st q k ef = .error e → e.kindAllowed = true) ∧
    (∀ st e, HnswIndexCosine.len st = .error e → e.kindAllowed = true) ∧
    (∀ st e, HnswIndexCosine.is_empty st = .error e → e.kindAllowed = true) ∧
    (∀ st fs dir base io e, HnswIndexCosine.save st fs dir base io = .error e → e.kindAllowed = true) ∧
    (∀ st en e, (HnswIndexCosine.set_searching_mode st en).1 = .error e → e.kindAllowed = true) ∧
    (∀ st data id e, (HnswIndexDot.insert st data id).1 = .error e → e.kindAllowed = true) ∧
    (∀ st data ids e, (HnswIndexDot.insert_batch st data ids).1 = .error e → e.kindAllowed = true) ∧
    (∀ st q k ef e, HnswIndexDot.search st q k ef = .error e → e.kindAllowed = true) ∧
    (∀ st e, HnswIndexDot.len st = .error e → e.kindAllowed = true) ∧
    (∀ st e, HnswIndexDot.is_empty st = .error e → e.kindAllowed = true) ∧
    (∀ st fs dir base io e, HnswIndexDot.save st fs dir base io = .error e → e.kindAllowed = true) ∧
    (∀ st en e, (HnswIndexDot.set_searching_mode st en).1 = .error e → e.kindAllowed = true) ∧
    (∀ st data id e, (HnswIndexL1.insert st data id).1 = .error e → e.kindAllowed = true) ∧
    (∀ st data ids e, (HnswIndexL1.insert_batch st data ids).1 = .error e → e.kindAllowed = true) ∧
    (∀ st q k ef e, HnswIndexL1.search st q k ef = .error e → e.kindAllowed = true) ∧
    (∀ st e, HnswIndexL1.len st = .error e → e.kindAllowed = true) ∧
    (∀ st e, HnswIndexL1.is_empty st = .error e → e.kindAllowed = true) ∧
    (∀ st fs dir base io e, HnswIndexL1.save st fs dir base io = .error e → e.kindAllowed = true) ∧
    (∀ st en e, (HnswIndexL1.set_searching_mode st en).1 = .error e → e.kindAllowed = true) :=
  ⟨insert_err_allowed, insert_batch_err_allowed,
    fun st q k ef e h => search_err_allowed .L2 st q k ef e h,
    len_err_allowed, is_empty_err_allowed, save_err_allowed,
    set_searching_mode_err_allowed,
    insert_err_allowed, insert_batch_err_allowed,
    fun st q k ef e h => search_err_allowed .Cosine st q k ef e h,
    len_err_allowed, is_empty_err_allowed, save_err_allowed,
    set_searching_mode_err_allowed,
    insert_err_allowed, insert_batch_err_allowed,
    fun st q k ef e h => search_err_allowed .Dot st q k ef e h,
    len_err_allowed, is_empty_err_allowed, save_err_allowed,
    set_searching_mode_err_allowed,
    insert_err_allowed, insert_batch_err_allowed,
    fun st q k ef e h => search_err_allowed .L1 st q k ef e h,
    len_err_allowed, is_empty_err_allowed, save_err_allowed,
    set_searching_mode_err_allowed⟩

/-- Witness for C10: the poisoned-lock insert error is `LockError`, an
allowed kind. -/
theorem no_empty_index_error_witness : HnswError.kindAllowed .LockError = true :=
  no_empty_index_error.1 examplePoisonedIndex [] 0 .LockError rfl

/-- Claim C9: the four metric-specific index types implement the same logical
operation set — identical construction, validation, locking, error mapping
and result shape — and each coincides with the single generic implementation
`HnswIndex.*` instantiated at its metric, the metric entering only through
the distance function handed to the engine's search. -/
theorem variants_agree :
    (∀ c1 c2 c3 c4 c5, HnswIndexL2.new c1 c2 c3 c4 c5 = HnswIndex.new .L2 c1 c2 c3 c4 c5) ∧
    (∀ fs dir base dim, HnswIndexL2.load fs dir base dim = HnswIndex.load fs dir base dim) ∧
    (∀ st data id, HnswIndexL2.insert st data id = HnswIndex.insert st data id) ∧
    (∀ st data ids, HnswIndexL2.insert_batch st data ids = HnswIndex.insert_batch st data ids) ∧
    (∀ st q k ef, HnswIndexL2.search st q k ef = HnswIndex.search .L2 st q k ef) ∧
    (∀ st, HnswIndexL2.len st = HnswIndex.len st) ∧
    (∀ st, HnswIndexL2.is_empty st = HnswIndex.is_empty st) ∧
    (∀ st, HnswIndexL2.get_dimension st = HnswIndex.get_dimension st) ∧
    (∀ st fs dir base io, HnswIndexL2.save st fs dir base io = HnswIndex.save st fs dir base io) ∧
    (∀ st en, HnswIndexL2.set_searching_mode st en = HnswIndex.set_searching_mode st en) ∧
    (∀ c1 c2 c3 c4 c5, HnswIndexCosine.new c1 c2 c3 c4 c5 = HnswIndex.new .Cosine c1 c2 c3 c4 c5) ∧
    (∀ fs dir base dim, HnswIndexCosine.load fs dir base dim = HnswIndex.load fs dir base dim) ∧
    (∀ st data id, HnswIndexCosine.insert st data id = HnswIndex.insert st data id) ∧
    (∀ st data ids, HnswIndexCosine.insert_batch st data ids = HnswIndex.insert_batch st data ids) ∧
    (∀ st q k ef, HnswIndexCosine.search st q k ef = HnswIndex.search .Cosine st q k ef) ∧
    (∀ st, HnswIndexCosine.len st = HnswIndex.len st) ∧
    (∀ st, HnswIndexCosine.is_empty st = HnswIndex.is_empty st) ∧
    (∀ st, HnswIndexCosine.get_dimension st = HnswIndex.get_dimension st) ∧
    (∀ st fs dir base io, HnswIndexCosine.save st fs dir base io = HnswIndex.save st fs dir base io) ∧
    (∀ st en, HnswIndexCosine.set_searching_mode st en = HnswIndex.set_searching_mode st en) ∧
    (∀ c1 c2 c3 c4 c5, HnswIndexDot.new c1 c2 c3 c4 c5 = HnswIndex.new .Dot c1 c2 c3 c4 c5) ∧
    (∀ fs dir base dim, HnswIndexDot.load fs dir base dim = HnswIndex.load fs dir base dim) ∧
    (∀ st data id, HnswIndexDot.insert st data id = HnswIndex.insert st data id) ∧
    (∀ st data ids, HnswIndexDot.insert_batch st data ids = HnswIndex.insert_batch st data ids) ∧
    (∀ st q k ef, HnswIndexDot.search st q k ef = HnswIndex.search .Dot st q k ef) ∧
    (∀ st, HnswIndexDot.len st = HnswIndex.len st) ∧
    (∀ st, HnswIndexDot.is_empty st = HnswIndex.is_empty st) ∧
    (∀ st, HnswIndexDot.get_dimension st = HnswIndex.get_dimension st) ∧
    (∀ st fs dir base io, HnswIndexDot.save st fs dir base io = HnswIndex.save st fs dir base io) ∧
    (∀ st en, HnswIndexDot.set_searching_mode st en = HnswIndex.set_searching_mode st en) ∧
    (∀ c1 c2 c3 c4 c5, HnswIndexL1.new c1 c2 c3 c4 c5 = HnswIndex.new .L1 c1 c2 c3 c4 c5) ∧
    (∀ fs dir base dim, HnswIndexL1.load fs dir base dim = HnswIndex.load fs dir base dim) ∧
    (∀ st data id, HnswIndexL1.insert st data id = HnswIndex.insert st data id) ∧
    (∀ st data ids, HnswIndexL1.insert_batch st data ids = HnswIndex.insert_batch st data ids) ∧
    (∀ st q k ef, HnswIndexL1.search st q k ef = HnswIndex.search .L1 st q k ef) ∧
    (∀ st, HnswIndexL1.len st = HnswIndex.len st) ∧
    (∀ st, HnswIndexL1.is_empty st = HnswIndex.is_empty st) ∧
    (∀ st, HnswIndexL1.get_dimension st = HnswIndex.get_dimension st) ∧
    (∀ st fs dir base io, HnswIndexL1.save st fs dir base io = HnswIndex.save st fs dir base io) ∧
    (∀ st en, HnswIndexL1.set_searching_mode st en = HnswIndex.set_searching_mode st en) :=
  ⟨fun _ _ _ _ _ => rfl, fun _ _ _ _ => rfl, fun _ _ _ => rfl, fun _ _ _ => rfl,
    fun _ _ _ _ => rfl, fun _ => rfl, fun _ => rfl, fun _ => rfl,
    fun _ _ _ _ _ => rfl, fun _ _ => rfl,
    fun _ _ _ _ _ => rfl, fun _ _ _ _ => rfl, fun _ _ _ => rfl, fun _ _ _ => rfl,
    fun _ _ _ _ => rfl, fun _ => rfl, fun _ => rfl, fun _ => rfl,
    fun _ _ _ _ _ => rfl, fun _ _ => rfl,
    fun _ _ _ _ _ => rfl, fun _ _ _ _ => rfl, fun _ _ _ => rfl, fun _ _ _ => rfl,
    fun _ _ _ _ => rfl, fun _ => rfl, fun _ => rfl, fun _ => rfl,
    fun _ _ _ _ _ => rfl, fun _ _ => rfl,
    fun _ _ _ _ _ => rfl, fun _ _ _ _ => rfl, fun _ _ _ => rfl, fun _ _ _ => rfl,
    fun _ _ _ _ => rfl, fun _ => rfl, fun _ => rfl, fun _ => rfl,
    fun _ _ _ _ _ => rfl, fun _ _ => rfl⟩

/-- Claim C8: saving an index (under a healthy lock, with the engine's dump
succeeding) and loading the image back with the same dimension yields an
index with the same `len` and, for every metric, query, `k` and `ef_search`,
exactly the same search output. -/
theorem save_load_round_trip (st : HnswIndex) (fs : Store)
    (directory basename : String) (hp : st.poisoned = false) :
    ∃ fs2,
      HnswIndex.save st fs directory basename none = .ok fs2 ∧
      ∃ st2,
        HnswIndex.load fs2 directory basename st.dimension = .ok st2 ∧
          HnswIndex.len st2 = HnswIndex.len st ∧
          ∀ d q k ef, HnswIndex.search d st2 q k ef = HnswIndex.search d st q k ef := by
  refine ⟨((directory, basename), st.inner) :: fs, ?_, ?_⟩
  · unfold HnswIndex.save Graph.file_dump
    rw [if_neg (by simp [hp])]
  · refine ⟨{ inner := st.inner, poisoned := false, dimension := st.dimension },
      ?_, ?_, ?_⟩
    · unfold HnswIndex.load Store.load_hnsw
      rw [List.find?_cons_of_pos _ (by simp)]
    · simp [HnswIndex.len, hp]
    · intro d q k ef
      unfold HnswIndex.search
      simp [hp]

/-- Witness for C8: saving the concrete scenario index and loading it back
reproduces its `len` and all of its search output. -/
theorem save_load_round_trip_witness :
    ∃ fs2,
      HnswIndex.save exampleScenarioIndex [] "dir" "index" none = .ok fs2 ∧
      ∃ st2,
        HnswIndex.load fs2 "dir" "index" exampleScenarioIndex.dimension = .ok st2 ∧
          HnswIndex.len st2 = HnswIndex.len exampleScenarioIndex ∧
          ∀ d q k ef,
            HnswIndex.search d st2 q k ef
              = HnswIndex.search d exampleScenarioIndex q k ef :=
  save_load_round_trip exampleScenarioIndex [] "dir" "index" rfl

/-- On a duplicate-free id list, the ids surviving a tombstone filter number
the original count minus the intersection with the tombstone set. -/
theorem length_filter_not_mem (ids S : List Nat) (h : ids.Nodup) :
    (ids.filter (fun i => decide (i ∉ S))).length
      = ids.length - (ids.toFinset ∩ S.toFinset).card := by
  classical
  have h4 := length_filter_mem_eq_card_inter (S := S) h
  have h1 := length_filter_not_add ids (fun i => decide (i ∈ S))
  have h3 : ids.filter (fun i => decide (i ∉ S))
      = ids.filter (fun a => !(decide (a ∈ S))) := by simp [decide_not]
  rw [h3]
  omega

/-- Claim C1: compacting a source index whose points carry pairwise-distinct
origin ids under a matching config yields an index whose `len` is the source
count minus the size of the intersection of the tombstone set with the
inserted ids, which holds exactly one point per distinct non-tombstoned
origin id, and on which no search (under any metric) ever returns a
tombstoned id.  The source state is a pure value here, so compaction leaves
it untouched by construction. -/
theorem compact_correct (st : HnswIndex) (S : List Nat) (config : HnswConfig)
    (hd : config.distance = st.inner.metric)
    (hdim : config.dimension = st.dimension)
    (hp : st.poisoned = false)
    (hrange : ∀ t ∈ S, t < 2 ^ 64)
    (hnodup : (st.inner.points.map Prod.snd).Nodup) :
    ∃ st2,
      HnswIndex.compact st S config = .ok st2 ∧
        HnswIndex.len st2
          = .ok (st.inner.points.length
              - ((st.inner.points.map Prod.snd).toFinset ∩ S.toFinset).card) ∧
        (∀ i, i ∈ st2.inner.points.map Prod.snd ↔
          i ∈ st.inner.points.map Prod.snd ∧ i ∉ S) ∧
        (st2.inner.points.map Prod.snd).Nodup ∧
        (∀ d q k ef res, HnswIndex.search d st2 q k ef = .ok res →
          ∀ r ∈ res, r.id ∉ S) := by
  classical
  have hsurv : filterSurvivors st.inner.enumeratePoints S []
      = st.inner.points.filter (fun p => decide (p.2 ∉ S)) :=
    filterSurvivors_eq_filter _ _ _ hnodup (by simp)
  have hlen : (st.inner.points.filter (fun p => decide (p.2 ∉ S))).length
      = st.inner.points.length
        - ((st.inner.points.map Prod.snd).toFinset ∩ S.toFinset).card := by
    have h2 : (st.inner.points.filter (fun p => decide (p.2 ∉ S))).map Prod.snd
        = (st.inner.points.map Prod.snd).filter (fun i => decide (i ∉ S)) :=
      map_snd_filter st.inner.points (fun i => decide (i ∉ S))
    have h5 : (st.inner.points.filter (fun p => decide (p.2 ∉ S))).length
        = ((st.inner.points.map Prod.snd).filter (fun i => decide (i ∉ S))).length := by
      rw [← h2, List.length_map]
    rw [h5, length_filter_not_mem _ _ hnodup, List.length_map]
  by_cases hz : st.inner.points = []
  · refine ⟨HnswIndex.new config.distance config.max_nb_connection
      config.max_elements config.max_layer config.ef_construction config.dimension,
      ?_, ?_, ?_, ?_, ?_⟩
    · unfold HnswIndex.compact
      rw [if_neg (by simp [hd]), if_neg (by simp [hdim]), if_neg (by simp [hp]),
        if_pos (by simp [Graph.get_nb_point, hz])]
    · simp [HnswIndex.len, HnswIndex.new, Graph.construct, Graph.get_nb_point, hz]
    · intro i
      simp [HnswIndex.new, Graph.construct, hz]
    · simp [HnswIndex.new, Graph.construct]
    · intro d q k ef res hres r hr
      unfold HnswIndex.search at hres
      split at hres
      · injection hres
      · split at hres
        · injection hres
        · injection hres with h2
          rw [← h2] at hr
          simp [Graph.searchEngine, HnswIndex.new, Graph.construct] at hr
  · have hany : ¬(S.any (fun t => decide (2 ^ 64 ≤ t)) = true) := by
      simp only [List.any_eq_true, decide_eq_true_eq]
      push_neg
      intro t ht
      exact hrange t ht
    have hmapfilter : (st.inner.points.filter (fun p => decide (p.2 ∉ S))).map Prod.snd
        = (st.inner.points.map Prod.snd).filter (fun i => decide (i ∉ S)) :=
      map_snd_filter st.inner.points (fun i => decide (i ∉ S))
    set surv := filterSurvivors st.inner.enumeratePoints S [] with hsurvdef
    set g0 := Graph.construct config.distance config.max_nb_connection
      (max config.max_elements surv.length) config.max_layer config.ef_construction
      with hg0
    set gg := surv.foldl (fun acc p => acc.insertPoint p.1 p.2) g0 with hgg
    have hpts2 : gg.points = st.inner.points.filter (fun p => decide (p.2 ∉ S)) := by
      rw [hgg, foldl_insertPoint]
      show g0.points ++ surv = _
      rw [hg0]
      show [] ++ surv = _
      rw [List.nil_append]
      exact hsurv
    refine ⟨{ inner := gg, poisoned := false, dimension := config.dimension },
      ?_, ?_, ?_, ?_, ?_⟩
    · unfold HnswIndex.compact
      rw [if_neg (by simp [hd]), if_neg (by simp [hdim]), if_neg (by simp [hp]),
        if_neg (by simp [Graph.get_nb_point, List.length_eq_zero, hz]),
        if_neg hany]
    · unfold HnswIndex.len
      rw [if_neg (by simp)]
      unfold Graph.get_nb_point
      dsimp only
      rw [hpts2, hlen]
    · intro i
      dsimp only
      rw [hpts2, hmapfilter]
      simp [List.mem_filter]
    · dsimp only
      rw [hpts2, hmapfilter]
      exact hnodup.filter _
    · intro d q k ef res hres r hr
      unfold HnswIndex.search at hres
      split at hres
      · injection hres
      · split at hres
        · injection hres
        · injection hres with h2
          rw [← h2] at hr
          unfold Graph.searchEngine at hr
          dsimp only at hr
          have hr2 := (List.take_sublist _ _).subset hr
          rw [List.mem_insertionSort] at hr2
          rw [hpts2] at hr2
          obtain ⟨p, hpmem, hpe⟩ := List.mem_map.mp hr2
          intro hrS
          rw [List.mem_filter] at hpmem
          have hnot : p.2 ∉ S := by simpa using hpmem.2
          apply hnot
          have hid : r.id = p.2 := by rw [← hpe]
          rw [hid] at hrS
          exact hrS

/-- Witness for C1: compacting the three-point source (ids 1,2,3) with
tombstones {2,5} succeeds with the claimed length, membership, uniqueness and
search-exclusion properties. -/
theorem compact_correct_witness :
    ∃ st2,
      HnswIndex.compact exampleCompactSource [2, 5] exampleCompactConfig = .ok st2 ∧
        HnswIndex.len st2
          = .ok (exampleCompactSource.inner.points.length
              - ((exampleCompactSource.inner.points.map Prod.snd).toFinset
                  ∩ ([2, 5] : List Nat).toFinset).card) ∧
        (∀ i, i ∈ st2.inner.points.map Prod.snd ↔
          i ∈ exampleCompactSource.inner.points.map Prod.snd ∧ i ∉ [2, 5]) ∧
        (st2.inner.points.map Prod.snd).Nodup ∧
        (∀ d q k ef res, HnswIndex.search d st2 q k ef = .ok res →
          ∀ r ∈ res, r.id ∉ [2, 5]) :=
  compact_correct exampleCompactSource [2, 5] exampleCompactConfig rfl rfl rfl
    (by decide) (by decide)

/-- Claim C7: under a matching config whose `max_elements` is smaller than
the survivor count, compaction still succeeds, the rebuilt graph is allocated
with capacity `max(config.max_elements, survivor_count)`, and the result
holds every survivor. -/
theorem compact_capacity_floor (st : HnswIndex) (tombstones : List Nat)
    (config : HnswConfig)
    (hd : config.distance = st.inner.metric)
    (hdim : config.dimension = st.dimension)
    (hp : st.poisoned = false)
    (hrange : ∀ t ∈ tombstones, t < 2 ^ 64)
    (hsmall : config.max_elements
      < (filterSurvivors st.inner.enumeratePoints tombstones []).length) :
    ∃ st2,
      HnswIndex.compact st tombstones config = .ok st2 ∧
        st2.inner.max_elements
          = max config.max_elements
              (filterSurvivors st.inner.enumeratePoints tombstones []).length ∧
        ∀ p ∈ filterSurvivors st.inner.enumeratePoints tombstones [],
          p ∈ st2.inner.points := by
  have hz : st.inner.points ≠ [] := by
    intro h
    simp only [Graph.enumeratePoints, h, filterSurvivors, List.length_nil] at hsmall
    exact Nat.not_lt_zero _ hsmall
  have hany : ¬(tombstones.any (fun t => decide (2 ^ 64 ≤ t)) = true) := by
    simp only [List.any_eq_true, decide_eq_true_eq]
    push_neg
    intro t ht
    exact hrange t ht
  set surv := filterSurvivors st.inner.enumeratePoints tombstones [] with hsurvdef
  set g0 := Graph.construct config.distance config.max_nb_connection
    (max config.max_elements surv.length) config.max_layer config.ef_construction
    with hg0
  set gg := surv.foldl (fun acc p => acc.insertPoint p.1 p.2) g0 with hgg
  have hpts2 : gg.points = surv := by
    rw [hgg, foldl_insertPoint]
    show g0.points ++ surv = surv
    rw [hg0]
    show [] ++ surv = surv
    rw [List.nil_append]
  have hmax : gg.max_elements = max config.max_elements surv.length := by
    rw [hgg, foldl_insertPoint, hg0]
    rfl
  refine ⟨{ inner := gg, poisoned := false, dimension := config.dimension },
    ?_, ?_, ?_⟩
  · unfold HnswIndex.compact
    rw [if_neg (by simp [hd]), if_neg (by simp [hdim]), if_neg (by simp [hp]),
      if_neg (by simp [Graph.get_nb_point, List.length_eq_zero, hz]),
      if_neg hany]
  · exact hmax
  · intro p hpmem
    dsimp only
    rw [hpts2]
    exact hpmem

/-- Witness for C7: compacting the three-point source under a capacity-1
config succeeds, allocates capacity `max 1 3`, and keeps all three points. -/
theorem compact_capacity_floor_witness :
    ∃ st2,
      HnswIndex.compact exampleCompactSource [] exampleSmallConfig = .ok st2 ∧
        st2.inner.max_elements
          = max exampleSmallConfig.max_elements
              (filterSurvivors exampleCompactSource.inner.enumeratePoints [] []).length ∧
        ∀ p ∈ filterSurvivors exampleCompactSource.inner.enumeratePoints [] [],
          p ∈ st2.inner.points :=
  compact_capacity_floor exampleCompactSource [] exampleSmallConfig rfl rfl rfl
    (by decide) (by decide)
